import Mathlib

/-!
Verification development for the CanvasHelper feature-engineering and
training/prediction core (`backend/scraping_data.py`, `backend/train_model.py`,
`backend/main.py`).

The Python code is shallowly embedded:
* real-valued float arithmetic is idealised over `ℝ` where the natural
  logarithm (`np.log1p`) is involved, and over `ℚ` elsewhere;
* `None`/`NaN`-able values are `Option`s;
* Python `round(x, 2)` (round-half-to-even on the last kept digit) is
  modelled by `rndHalfEven`;
* fallible code returns `Option`/`Except`.
-/

namespace CanvasHelper

/-! ## Rounding (Python `round`, banker's rounding) -/

/-- Round to the nearest integer, ties to even: the tie-breaking rule of
Python's built-in `round` and of numpy on binary floats.  On a tie
(`Int.fract x = 1/2`) the even neighbour is `2 * round (x / 2)`. -/
def rndHalfEven {α : Type} [LinearOrderedField α] [FloorRing α] [DecidableEq α]
    (x : α) : ℤ :=
  if Int.fract x = 1 / 2 then 2 * round (x / 2) else round x

/-- `round(x, 2)`: round to two decimal places, ties to even. -/
def roundTo2 {α : Type} [LinearOrderedField α] [FloorRing α] [DecidableEq α]
    (x : α) : α :=
  (rndHalfEven (100 * x) : α) / 100

/-! ## Feature Builder: the proxy-label formula (`scraping_data.compute_hours_proxy`) -/

/-- A row of the engineered feature frame `df_feat`, as read by
`compute_hours_proxy` (it only consults these fields; `None`/`NaN` cells are
`none`). -/
structure FeatRow where
  weight : Option ℝ
  vle_count_total : Option ℝ
  past_avg_score : Option ℝ
  assessment_type : Option String

/-- `scraping_data.compute_hours_proxy(row, alpha=0.06, beta=0.35, gamma=0.025, base=0.75)`.

```
w = row.get('weight') or 0.0
vlec = row.get('vle_count_total') or 0.0
past = row.get('past_avg_score') if not pd.isna(row.get('past_avg_score')) else 50.0
past_norm = float(past) / 100.0
hours = base + (w * alpha) + np.log1p(vlec) * beta - (past_norm * gamma * 10.0)
hours = max(0.25, float(hours)); hours = min(hours, 20.0)
return round(hours, 2)
```

On reals, `x or 0.0` (missing-or-falsy to `0.0`) is `Option.getD 0`, since the
only falsy float is `0.0` itself.  `np.log1p v` is `Real.log (1 + v)`.  The
`try: float(past)` conversion cannot fail on a typed real cell. -/
noncomputable def compute_hours_proxy (row : FeatRow) (alpha : ℝ := 0.06)
    (beta : ℝ := 0.35) (gamma : ℝ := 0.025) (base : ℝ := 0.75) : ℝ :=
  let w : ℝ := row.weight.getD 0
  let vlec : ℝ := row.vle_count_total.getD 0
  let past : ℝ := row.past_avg_score.getD 50
  let past_norm : ℝ := past / 100
  let hours : ℝ := base + (w * alpha) + Real.log (1 + vlec) * beta - (past_norm * gamma * 10)
  roundTo2 (min (max 0.25 hours) 20)

/-- `clamp(x, lo, hi)` as written in the spec's proxy-label formula. -/
def clampSpec (x lo hi : ℝ) : ℝ := max lo (min x hi)

/-- The proxy-label formula transcribed from the SPEC's words (for the C2
refinement check):
`round(clamp(0.75 + weight*0.06 + ln(1 + vle_count_total)*0.35
            - (past_avg_score/100)*0.25, 0.25, 20.0), 2)`,
with a null `past_avg_score` replaced by `50.0` before dividing and a missing
`weight`/`vle_count_total` defaulting to `0`. -/
noncomputable def proxySpecFormula (row : FeatRow) : ℝ :=
  let past_norm : ℝ := row.past_avg_score.getD 50 / 100
  let hours : ℝ := 0.75 + row.weight.getD 0 * 0.06
    + Real.log (1 + row.vle_count_total.getD 0) * 0.35 - past_norm * 0.25
  roundTo2 (clampSpec hours 0.25 20)

/-- The worked end-to-end example row of spec §8:
`{weight: 10, vle_count_total: 5, past_avg_score: 78, assessment_type: "Homework"}`. -/
def exampleRow : FeatRow :=
  { weight := some 10, vle_count_total := some 5, past_avg_score := some 78,
    assessment_type := some "Homework" }

/-! ## Prediction Service (`main.py`)

A JSON record field is `Option (Option v)`: `none` = key absent,
`some none` = key present holding `null`, `some (some v)` = key present
holding `v`.  `pyGet f d` is `a.get(k, d)`. -/

/-- Python `a.get(key, default)`: the stored value (possibly `null`) when the
key is present, the default otherwise. -/
def pyGet {α : Type} (field : Option (Option α)) (d : Option α) : Option α :=
  field.getD d

/-- Python `v or d` on a possibly-`None` number: `None` and falsy `0` both
give `d`. -/
def pyOrQ (v : Option ℚ) (d : ℚ) : ℚ :=
  match v with
  | none => d
  | some x => if x = 0 then d else x

/-- Python `v or d` on a possibly-`None` string: `None` and the falsy empty
string both give `d`. -/
def pyOrStr (v : Option String) (d : String) : String :=
  match v with
  | none => d
  | some s => if s = "" then d else s

/-- Python `v or w` on possibly-`None` strings, keeping the possibly-`None`
result (used for the output id/name chains). -/
def pyOrOpt (v w : Option String) : Option String :=
  match v with
  | none => w
  | some s => if s = "" then w else some s

/-- A loosely structured JSON assignment record as accepted by
`POST /api/predict` (`main.route_predict`).  Fields not listed here are never
consulted by the handler. -/
structure PredRecord where
  weight : Option (Option ℚ) := none
  weight_percent : Option (Option ℚ) := none
  vle_count_total : Option (Option ℚ) := none
  vle_count : Option (Option ℚ) := none
  past_avg_score : Option (Option ℚ) := none
  past_score : Option (Option ℚ) := none
  student_past_avg : Option (Option ℚ) := none
  assessment_type : Option (Option String) := none
  type : Option (Option String) := none
  assignment_id : Option (Option String) := none
  id : Option (Option String) := none
  assignment : Option (Option String) := none
  name : Option (Option String) := none
  assignment_name : Option (Option String) := none
  deriving DecidableEq, Repr

/-- `weight = a.get("weight", a.get("weight_percent", 0.0)) or 0.0`. -/
def resolve_weight (a : PredRecord) : ℚ :=
  pyOrQ (pyGet a.weight (pyGet a.weight_percent (some 0))) 0

/-- `vle = a.get("vle_count_total", a.get("vle_count", 0)) or 0`. -/
def resolve_vle (a : PredRecord) : ℚ :=
  pyOrQ (pyGet a.vle_count_total (pyGet a.vle_count (some 0))) 0

/-- ```
past = a.get("past_avg_score", a.get("past_score", None))
if past is None: past = a.get("student_past_avg", 50.0)
```
The result may still be `None` (e.g. `student_past_avg` present holding
`null`), in which case the later `float(past)` raises. -/
def resolve_past (a : PredRecord) : Option ℚ :=
  match pyGet a.past_avg_score (pyGet a.past_score none) with
  | none => pyGet a.student_past_avg (some 50)
  | some p => some p

/-- `assess_type = a.get("assessment_type", a.get("type", "unknown")) or "unknown"`. -/
def resolve_assess_type (a : PredRecord) : String :=
  pyOrStr (pyGet a.assessment_type (pyGet a.type (some "unknown"))) "unknown"

/-- A normalized feature row handed to the loaded pipeline. -/
structure NormRow where
  weight : ℚ
  vle_count_total : ℚ
  past_avg_score : ℚ
  assessment_type : String
  deriving DecidableEq, Repr

/-- The per-record normalization of `route_predict`.  `none` models the
uncaught `TypeError` of `float(None)` when the past-score resolution yields
`None`. -/
def normalizeRecord (a : PredRecord) : Option NormRow :=
  match resolve_past a with
  | none => none
  | some p =>
    some { weight := resolve_weight a, vle_count_total := resolve_vle a,
           past_avg_score := p, assessment_type := resolve_assess_type a }

/-- A loaded model artifact: a batch scorer; `none` models
`SCHEDULE_MODEL.predict(X)` raising (schema mismatch etc.). -/
def Model : Type := List NormRow → Option (List ℚ)

/-- One element of the `predictions` output list. -/
structure OutRec where
  assignment_id : Option String
  assignment : Option String
  predicted_hours : ℚ
  deriving DecidableEq, Repr

/-- The HTTP-level outcome of `route_predict`: a JSON error body with a
status code, a success payload, or an uncaught exception (the host framework
turns the latter into a stack-trace-shaped generic 500). -/
inductive PredictResp : Type where
  | errResp (msg : String) (code : ℕ)
  | okResp (out : List OutRec)
  | uncaught
  deriving DecidableEq, Repr

/-- The exact 503 message of `route_predict`. -/
def notReadyMsg : String :=
  "Schedule model not loaded. Train model first or call /api/reload_model."

/-- One entry of the output loop of `route_predict`:
```
{"assignment_id": orig.get("assignment_id") or orig.get("id") or orig.get("assignment"),
 "assignment": orig.get("assignment") or orig.get("name") or orig.get("assignment_name"),
 "predicted_hours": float(round(float(p), 2))}
``` -/
def outputRow (orig : PredRecord) (p : ℚ) : OutRec :=
  { assignment_id := pyOrOpt (pyGet orig.assignment_id none)
      (pyOrOpt (pyGet orig.id none) (pyGet orig.assignment none)),
    assignment := pyOrOpt (pyGet orig.assignment none)
      (pyOrOpt (pyGet orig.name none) (pyGet orig.assignment_name none)),
    predicted_hours := roundTo2 p }

/-- `main.route_predict`, as a function of the global `SCHEDULE_MODEL` and the
parsed request body (`none` = body missing/falsy or lacking the
`assignments` key). -/
def routePredict (model : Option Model) (body : Option (List PredRecord)) :
    PredictResp :=
  match body with
  | none => .errResp "Request JSON must contain assignments field (list)" 400
  | some raw =>
    match model with
    | none => .errResp notReadyMsg 503
    | some m =>
      match raw.mapM normalizeRecord with
      | none => .uncaught
      | some rows =>
        match m rows with
        | none => .errResp "Model prediction failed" 500
        | some preds => .okResp (List.zipWith outputRow raw preds)

/-- The state of the artifact file at `SCHEDULE_MODEL_PATH`: absent, present
but failing to deserialize, or present and deserializing to a model. -/
inductive ModelFile : Type where
  | missing
  | corrupt
  | artifact (m : Model)

/-- `config.SCHEDULE_MODEL_PATH`. -/
def SCHEDULE_MODEL_PATH : String := "backend/models/schedule_model.pkl"

/-- `main.load_schedule_model`: rebinds the global `SCHEDULE_MODEL` and
returns the path on success, `None` on a missing file or a deserialization
failure.  First component: the new value of the global; second: the return
value.  `prev` is the previous value of the global (never read by the code:
the global is assigned on every path). -/
def loadScheduleModel (prev : Option Model) (fs : ModelFile) :
    Option Model × Option String :=
  match fs with
  | .artifact m => (some m, some SCHEDULE_MODEL_PATH)
  | .missing => (none, none)
  | .corrupt => (none, none)

/-! ## Training Pipeline (`train_model.main`) -/

/-- The loaded training CSV (`pd.read_csv(data_fp)`): its path, column names
and row count are all `main` consults for control flow and metadata. -/
structure LoadedCsv where
  path : String
  cols : List String
  nrows : ℕ
  deriving DecidableEq, Repr

/-- The fixed candidate feature list of `train_model.main`. -/
def featureCandidates : List String :=
  ["weight", "vle_count_total", "past_avg_score", "assessment_type"]

/-- `expected_features`: the candidates actually present in the dataset, in
candidate order. -/
def expectedFeatures (df : LoadedCsv) : List String :=
  featureCandidates.filter (fun c => c ∈ df.cols)

/-- External effects of one run of `train_model.main`: the result of
`find_data_file` (`none` = `FileNotFoundError`), the held-out sklearn metrics
`(r2, mae, rmse)`, the cross-validation outcome (`none` = `cross_val_score`
or the mean/std computation raised, for any reason), and the
feature-importance extraction outcome (`none` = it raised). -/
structure TrainEnv where
  dataFile : Option LoadedCsv
  evalMetrics : ℚ × ℚ × ℚ
  cvResult : Option (ℚ × ℚ)
  fiResult : Option (List (String × ℚ))

/-- The fatal errors `train_model.main` can raise. -/
inductive TrainError : Type where
  | noDataFound
  | targetMissing
  | noFeatures
  deriving DecidableEq, Repr

/-- The `training_metrics.json` report written by `main`. -/
structure MetricsReport where
  data_file : String
  n_samples : ℕ
  features : List String
  target : String
  r2_test : ℚ
  mae_test : ℚ
  rmse_test : ℚ
  cv_r2_mean : Option ℚ
  cv_r2_std : Option ℚ
  feature_importances : Option (List (String × ℚ))
  deriving DecidableEq, Repr

/-- What a completed run leaves behind: the persisted pipeline artifact
(`joblib.dump`), the metrics file, and its contents. -/
structure TrainRunOutput where
  artifactWritten : Bool
  metricsWritten : Bool
  metrics : MetricsReport
  deriving DecidableEq, Repr

/-- `train_model.main`: locate data, validate columns, fit/evaluate (external
effects), best-effort cross-validation and feature importances, then persist
the artifact and the metrics report unconditionally. -/
def trainMain (env : TrainEnv) : Except TrainError TrainRunOutput :=
  match env.dataFile with
  | none => .error .noDataFound
  | some df =>
    if "assignment_hours" ∈ df.cols then
      let feats := expectedFeatures df
      if feats.isEmpty then .error .noFeatures
      else
        let r2 := env.evalMetrics.1
        let mae := env.evalMetrics.2.1
        let rmse := env.evalMetrics.2.2
        let cvMean : Option ℚ := env.cvResult.map Prod.fst
        let cvStd : Option ℚ := env.cvResult.map Prod.snd
        .ok { artifactWritten := true, metricsWritten := true,
              metrics := { data_file := df.path, n_samples := df.nrows,
                           features := feats, target := "assignment_hours",
                           r2_test := r2, mae_test := mae, rmse_test := rmse,
                           cv_r2_mean := cvMean, cv_r2_std := cvStd,
                           feature_importances := env.fiResult } }
    else .error .targetMissing

/-! ## Feature Builder table pipeline (`scraping_data`, rows 199-302)

Embedded over `ℚ`-valued cells; a pandas `NaN` cell is `none`.  The column
aliasing has already been applied, so the canonical column names are field
names.  pandas `merge` matches `NaN` keys with `NaN` keys, hence plain
`Option` equality on join keys; `groupby` drops `NaN` keys. -/

/-- A `studentAssessment` row (after column normalization). -/
structure SubmissionRow where
  id_student : Option ℤ
  id_assessment : Option ℤ
  score : Option ℚ
  deriving DecidableEq, Repr

/-- An `assessments` metadata row (after column normalization and
weight-aliasing). -/
structure AssessmentMetaRow where
  id_assessment : Option ℤ
  assessment_type : Option String
  weight : Option ℚ
  deriving DecidableEq, Repr

/-- A `studentVle` row, with the resolved click column. -/
structure VleRow where
  id_student : Option ℤ
  clicks : Option ℚ
  deriving DecidableEq, Repr

/-- The non-null student ids of the submission table: the group keys of
`student_assess.groupby('id_student')` (pandas drops `NaN` keys). -/
def studentKeys (subs : List SubmissionRow) : List ℤ :=
  (subs.filterMap (fun s => s.id_student)).dedup

/-- The aggregated value of one `past_avg` group: the mean of the non-`NaN`
scores of that student's submission rows, with `fillna(0)` turning the
all-`NaN` mean into `0`. -/
def pastAvgOf (subs : List SubmissionRow) (sid : ℤ) : ℚ :=
  let scores := (subs.filter (fun s => s.id_student = some sid)).filterMap
    (fun s => s.score)
  if scores.isEmpty then 0 else scores.sum / scores.length

/-- `past_avg = student_assess.groupby('id_student').agg(past_avg_score=('score', 'mean'))`
followed by `fillna(0)`. -/
def pastAvgTable (subs : List SubmissionRow) : List (ℤ × ℚ) :=
  (studentKeys subs).map (fun sid => (sid, pastAvgOf subs sid))

/-- `vle_count_df`: per student, the sum of the click column (pandas `sum`
skips `NaN` and yields `0` for an empty/all-`NaN` group). -/
def vleCountTable (svle : List VleRow) : List (ℤ × ℚ) :=
  ((svle.filterMap (fun v => v.id_student)).dedup).map (fun sid =>
    ((svle.filter (fun v => v.id_student = some sid)).filterMap
      (fun v => v.clicks)).sum |> (sid, ·))

/-- `merged = student_assess.merge(assessments, on='id_assessment',
how='left')`: each submission row paired with every matching metadata row,
or with `none` when unmatched (one-to-many duplication accepted). -/
def mergedRows (subs : List SubmissionRow) (asl : List AssessmentMetaRow) :
    List (SubmissionRow × Option AssessmentMetaRow) :=
  subs.flatMap (fun s =>
    match asl.filter (fun a => a.id_assessment = s.id_assessment) with
    | [] => [(s, none)]
    | l => l.map (fun a => (s, some a)))

/-- A row of the engineered frame `df_feat` (columns that C10 concerns;
the `assignment_hours` column is computed row-wise by
`compute_hours_proxy` from these cells and adds no nulls). -/
structure FeatureRow where
  student_id : Option ℤ
  assessment_id : Option ℤ
  assessment_type : Option String
  weight : Option ℚ
  score : Option ℚ
  vle_count_total : Option ℚ
  past_avg_score : Option ℚ
  deriving DecidableEq, Repr

/-- Rows 242-274 of `scraping_data`: merge the per-student aggregates into
`merged` (left join on `id_student`; `vle_clicks_total` is `fillna(0)`-ed, or
the whole column is set to `0` when no VLE table was found), then build the
`df_feat` rows.  `svle = none` models `vle_count_df is None`. -/
def buildFeatureRows (subs : List SubmissionRow) (asl : List AssessmentMetaRow)
    (svle : Option (List VleRow)) : List FeatureRow :=
  let pa := pastAvgTable subs
  let vc := svle.map vleCountTable
  (mergedRows subs asl).map (fun sa =>
    let s := sa.1
    let past : Option ℚ :=
      match s.id_student with
      | none => none
      | some sid => pa.lookup sid
    let vleOpt : Option ℚ :=
      match vc with
      | none => some 0
      | some tbl =>
        match s.id_student with
        | none => none
        | some sid => tbl.lookup sid
    { student_id := s.id_student
      assessment_id := s.id_assessment
      assessment_type :=
        match sa.2 with
        | some a =>
          match a.assessment_type with
          | some t => if t = "" then none else some t
          | none => none
        | none => none
      weight := some (match sa.2 with
        | some a => a.weight.getD 0
        | none => 0)
      score := s.score
      vle_count_total := some (vleOpt.getD 0)
      past_avg_score := past })

/-- `df_final = df_feat.dropna(subset=['student_id', 'assessment_id'])`. -/
def dfFinal (subs : List SubmissionRow) (asl : List AssessmentMetaRow)
    (svle : Option (List VleRow)) : List FeatureRow :=
  (buildFeatureRows subs asl svle).filter
    (fun r => r.student_id.isSome && r.assessment_id.isSome)

/-! ## Lemmas on half-to-even rounding -/

section RoundingLemmas

variable {α : Type} [LinearOrderedField α] [FloorRing α] [DecidableEq α]

theorem fract_half {x : α} (h : Int.fract x = 1 / 2) : x = (⌊x⌋ : α) + 1 / 2 := by
  have hf := Int.floor_add_fract x
  rw [h] at hf
  linarith

theorem round_quarter : round ((1 : α) / 4) = 0 := by
  rw [round_eq, show (1 : α) / 4 + 1 / 2 = 3 / 4 by ring, Int.floor_eq_iff]
  constructor <;> push_cast <;> norm_num

theorem round_three_quarters : round ((3 : α) / 4) = 1 := by
  rw [round_eq, show (3 : α) / 4 + 1 / 2 = 5 / 4 by ring, Int.floor_eq_iff]
  constructor <;> push_cast <;> norm_num

theorem rndHalfEven_bounds (x : α) :
    x - 1 / 2 ≤ (rndHalfEven x : α) ∧ (rndHalfEven x : α) ≤ x + 1 / 2 := by
  unfold rndHalfEven
  split
  · next h =>
    have hx := fract_half h
    rcases Int.even_or_odd ⌊x⌋ with ⟨m, hm⟩ | ⟨m, hm⟩
    · have h2 : x / 2 = (m : α) + 1 / 4 := by
        rw [hx, hm]; push_cast; ring
      rw [h2, round_int_add, round_quarter]
      constructor <;> (rw [hx, hm]; push_cast; linarith)
    · have h2 : x / 2 = (m : α) + 3 / 4 := by
        rw [hx, hm]; push_cast; ring
      rw [h2, round_int_add, round_three_quarters]
      constructor <;> (rw [hx, hm]; push_cast; linarith)
  · next h =>
    have hb := abs_sub_round x
    rw [abs_le] at hb
    constructor <;> linarith [hb.1, hb.2]

theorem rndHalfEven_mono {x y : α} (hxy : x ≤ y) : rndHalfEven x ≤ rndHalfEven y := by
  rcases lt_or_eq_of_le hxy with hlt | heq
  · by_contra hc
    push_neg at hc
    have h1 := (rndHalfEven_bounds x).2
    have h2 := (rndHalfEven_bounds y).1
    have h3 : (rndHalfEven y : α) + 1 ≤ (rndHalfEven x : α) := by
      exact_mod_cast Int.add_one_le_iff.mpr hc
    linarith
  · rw [heq]

theorem rndHalfEven_eq_of (a : ℤ) (x : α) (h1 : (a : α) - 1 / 2 < x)
    (h2 : x < (a : α) + 1 / 2) : rndHalfEven x = a := by
  unfold rndHalfEven
  split
  · next h =>
    exfalso
    have hx := fract_half h
    have hl : (a : α) - 1 < (⌊x⌋ : α) := by linarith
    have hr : (⌊x⌋ : α) < (a : α) := by linarith
    have hl' : a - 1 < ⌊x⌋ := by exact_mod_cast hl
    have hr' : ⌊x⌋ < a := by exact_mod_cast hr
    omega
  · next h =>
    rw [round_eq, Int.floor_eq_iff]
    constructor
    · push_cast; linarith
    · push_cast; linarith

theorem roundTo2_mono {x y : α} (hxy : x ≤ y) : roundTo2 x ≤ roundTo2 y := by
  unfold roundTo2
  have h : rndHalfEven (100 * x) ≤ rndHalfEven (100 * y) :=
    rndHalfEven_mono (by linarith)
  have h' : ((rndHalfEven (100 * x) : ℤ) : α) ≤ ((rndHalfEven (100 * y) : ℤ) : α) := by
    exact_mod_cast h
  linarith

theorem roundTo2_eq_of (a : ℤ) (x : α) (h1 : (a : α) - 1 / 2 < 100 * x)
    (h2 : 100 * x < (a : α) + 1 / 2) : roundTo2 x = (a : α) / 100 := by
  unfold roundTo2
  rw [rndHalfEven_eq_of a _ h1 h2]

end RoundingLemmas

/-! ## Numerical bounds on `Real.log 6` (for the worked example) -/

theorem log_three_halves_bounds :
    (129 / 324 : ℝ) ≤ Real.log (3 / 2) ∧ Real.log (3 / 2) ≤ (133 / 324 : ℝ) := by
  have key := Real.abs_log_sub_add_sum_range_le
    (x := (1 : ℝ) / 3) (by rw [abs_of_pos] <;> norm_num) 4
  have hsum : ∑ i ∈ Finset.range 4, ((1 : ℝ) / 3) ^ (i + 1) / (↑i + 1) = 131 / 324 := by
    simp [Finset.sum_range_succ]
    norm_num
  have hlog : Real.log (1 - 1 / 3) = -Real.log (3 / 2) := by
    rw [show (1 - 1 / 3 : ℝ) = (3 / 2)⁻¹ by norm_num, Real.log_inv]
  have hrhs : |(1 : ℝ) / 3| ^ (4 + 1) / (1 - |(1 : ℝ) / 3|) = 1 / 162 := by
    rw [abs_of_pos (by norm_num : (0 : ℝ) < 1 / 3)]
    norm_num
  rw [hsum, hlog, hrhs, abs_le] at key
  constructor <;> linarith [key.1, key.2]

theorem log_six_bounds : (1.784 : ℝ) < Real.log 6 ∧ Real.log 6 < (1.797 : ℝ) := by
  have h6 : Real.log 6 = 2 * Real.log 2 + Real.log (3 / 2) := by
    rw [show (6 : ℝ) = 2 ^ 2 * (3 / 2) by norm_num,
      Real.log_mul (by norm_num) (by norm_num), Real.log_pow]
    push_cast
    ring
  have h2l := Real.log_two_gt_d9
  have h2u := Real.log_two_lt_d9
  have h32 := log_three_halves_bounds
  constructor <;> (rw [h6]; linarith [h32.1, h32.2])

/-! ## The proxy-label formula: claims C1-C4 -/

theorem compute_hours_proxy_eq (row : FeatRow) (a b g bs : ℝ) :
    compute_hours_proxy row a b g bs =
      roundTo2 (min (max 0.25 (bs + row.weight.getD 0 * a
        + Real.log (1 + row.vle_count_total.getD 0) * b
        - row.past_avg_score.getD 50 / 100 * g * 10)) 20) := rfl

theorem roundTo2_clamped (h : ℝ) :
    0.25 ≤ roundTo2 (min (max (0.25 : ℝ) h) 20) ∧
      roundTo2 (min (max (0.25 : ℝ) h) 20) ≤ 20 := by
  have h1 : (0.25 : ℝ) ≤ min (max 0.25 h) 20 := le_min (le_max_left _ _) (by norm_num)
  have h2 : min (max (0.25 : ℝ) h) 20 ≤ 20 := min_le_right _ _
  have e1 : roundTo2 (0.25 : ℝ) = 0.25 := by
    rw [roundTo2_eq_of 25 _ (by norm_num) (by norm_num)]
    norm_num
  have e2 : roundTo2 (20 : ℝ) = 20 := by
    rw [roundTo2_eq_of 2000 _ (by norm_num) (by norm_num)]
    norm_num
  constructor
  · calc (0.25 : ℝ) = roundTo2 (0.25 : ℝ) := e1.symm
      _ ≤ roundTo2 (min (max (0.25 : ℝ) h) 20) := roundTo2_mono h1
  · calc roundTo2 (min (max (0.25 : ℝ) h) 20) ≤ roundTo2 (20 : ℝ) := roundTo2_mono h2
      _ = 20 := e2

theorem chp_mono_core {h₁ h₂ : ℝ} (hh : h₁ ≤ h₂) :
    roundTo2 (min (max (0.25 : ℝ) h₁) 20) ≤ roundTo2 (min (max (0.25 : ℝ) h₂) 20) :=
  roundTo2_mono (min_le_min (max_le_max le_rfl hh) le_rfl)

theorem hoursProxy_example_eq : compute_hours_proxy exampleRow = 1.78 := by
  have hlb := log_six_bounds.1
  have hub := log_six_bounds.2
  show roundTo2 (min (max 0.25 (0.75 + (10 : ℝ) * 0.06 + Real.log (1 + 5) * 0.35
    - 78 / 100 * 0.025 * 10)) 20) = 1.78
  rw [show (1 : ℝ) + 5 = 6 by norm_num]
  rw [max_eq_right (by linarith), min_eq_left (by linarith)]
  rw [roundTo2_eq_of 178 _ (by push_cast; linarith) (by push_cast; linarith)]
  norm_num

/-- C1: the spec's worked end-to-end example claims the proxy label of
`{weight: 10, vle_count_total: 5, past_avg_score: 78}` is `0.25` (formula
value negative, clamped to the floor).  The code disagrees: refuted. -/
theorem claim_C1_counterexample : ¬ compute_hours_proxy exampleRow = 0.25 := by
  rw [hoursProxy_example_eq]
  norm_num

/-- C1 (amended): on the spec's worked example row the proxy-label function
returns `1.78`: the formula value `0.75 + 0.6 + ln 6 * 0.35 - 0.78 * 0.25
≈ 1.782` is positive and inside `[0.25, 20]`, so no clamping occurs — the
spec example multiplies `past_norm` by `2.5` instead of the code's
`gamma * 10 = 0.25`. -/
theorem claim_C1_amended : compute_hours_proxy exampleRow = 1.78 :=
  hoursProxy_example_eq

/-- C2: the proxy-label function computes exactly
`round(clamp(0.75 + weight*0.06 + ln(1+vle)*0.35 - (past/100)*0.25,
0.25, 20.0), 2)`, with a null `past_avg_score` replaced by `50.0` before
dividing. -/
theorem claim_C2 (row : FeatRow) : compute_hours_proxy row = proxySpecFormula row := by
  obtain ⟨w0, v0, p0, t0⟩ := row
  rw [compute_hours_proxy_eq]
  unfold proxySpecFormula clampSpec
  dsimp only
  rw [max_min_distrib_left, max_eq_right (by norm_num : (0.25 : ℝ) ≤ 20)]
  rw [show (0.75 + w0.getD 0 * 0.06 + Real.log (1 + v0.getD 0) * 0.35
      - p0.getD 50 / 100 * 0.025 * 10)
    = (0.75 + w0.getD 0 * 0.06 + Real.log (1 + v0.getD 0) * 0.35
      - p0.getD 50 / 100 * 0.25) by ring]

/-- C3: for weight ≥ 0 and vle_count_total ≥ 0 (past score arbitrary,
possibly null) the proxy label lies in the closed interval `[0.25, 20.0]`. -/
theorem claim_C3 (w v : ℝ) (p : Option ℝ) (t : Option String)
    (hw : 0 ≤ w) (hv : 0 ≤ v) :
    0.25 ≤ compute_hours_proxy ⟨some w, some v, p, t⟩ ∧
      compute_hours_proxy ⟨some w, some v, p, t⟩ ≤ 20 := by
  rw [compute_hours_proxy_eq]
  exact roundTo2_clamped _

theorem claim_C3_witness :
    (0 : ℝ) ≤ 3 ∧ (0 : ℝ) ≤ 4 ∧
      (0.25 ≤ compute_hours_proxy ⟨some 3, some 4, none, none⟩ ∧
        compute_hours_proxy ⟨some 3, some 4, none, none⟩ ≤ 20) :=
  ⟨by norm_num, by norm_num, claim_C3 3 4 none none (by norm_num) (by norm_num)⟩

/-- C4: the proxy-label function (clamp and 2-decimal rounding included) is
non-decreasing in `weight`, non-decreasing in `vle_count_total` on
nonnegative counts, and non-increasing in `past_avg_score`, the other fields
held fixed. -/
theorem claim_C4 :
    (∀ (r : FeatRow) (w₁ w₂ : ℝ), w₁ ≤ w₂ →
      compute_hours_proxy { r with weight := some w₁ } ≤
        compute_hours_proxy { r with weight := some w₂ }) ∧
    (∀ (r : FeatRow) (v₁ v₂ : ℝ), 0 ≤ v₁ → v₁ ≤ v₂ →
      compute_hours_proxy { r with vle_count_total := some v₁ } ≤
        compute_hours_proxy { r with vle_count_total := some v₂ }) ∧
    (∀ (r : FeatRow) (p₁ p₂ : ℝ), p₁ ≤ p₂ →
      compute_hours_proxy { r with past_avg_score := some p₂ } ≤
        compute_hours_proxy { r with past_avg_score := some p₁ }) := by
  refine ⟨fun r w₁ w₂ h => ?_, fun r v₁ v₂ h0 h => ?_, fun r p₁ p₂ h => ?_⟩
  all_goals obtain ⟨w0, v0, p0, t0⟩ := r
  all_goals rw [compute_hours_proxy_eq, compute_hours_proxy_eq]
  all_goals refine chp_mono_core ?_
  all_goals dsimp only
  all_goals simp only [Option.getD_some]
  · linarith
  · have hlog := Real.log_le_log (show (0 : ℝ) < 1 + v₁ by linarith)
      (show (1 : ℝ) + v₁ ≤ 1 + v₂ by linarith)
    linarith
  · linarith

def c4row : FeatRow := ⟨none, some 0, none, none⟩

theorem claim_C4_witness :
    ((1 : ℝ) ≤ 2 ∧
      compute_hours_proxy { c4row with weight := some 1 } ≤
        compute_hours_proxy { c4row with weight := some 2 }) ∧
    ((0 : ℝ) ≤ 3 ∧ (3 : ℝ) ≤ 4 ∧
      compute_hours_proxy { c4row with vle_count_total := some 3 } ≤
        compute_hours_proxy { c4row with vle_count_total := some 4 }) ∧
    ((50 : ℝ) ≤ 60 ∧
      compute_hours_proxy { c4row with past_avg_score := some 60 } ≤
        compute_hours_proxy { c4row with past_avg_score := some 50 }) :=
  ⟨⟨by norm_num, claim_C4.1 c4row 1 2 (by norm_num)⟩,
   ⟨by norm_num, by norm_num, claim_C4.2.1 c4row 3 4 (by norm_num) (by norm_num)⟩,
   ⟨by norm_num, claim_C4.2.2 c4row 50 60 (by norm_num)⟩⟩

/-! ## Prediction Service: claims C5, C6, C8, C9 -/

theorem routePredict_single_congr (m : Model) (a b : PredRecord)
    (hn : normalizeRecord a = normalizeRecord b)
    (h1 : a.assignment_id = b.assignment_id) (h2 : a.id = b.id)
    (h3 : a.assignment = b.assignment) (h4 : a.name = b.name)
    (h5 : a.assignment_name = b.assignment_name) :
    routePredict (some m) (some [a]) = routePredict (some m) (some [b]) := by
  have hz : ∀ preds : List ℚ,
      List.zipWith outputRow [a] preds = List.zipWith outputRow [b] preds := by
    intro preds
    cases preds with
    | nil => rfl
    | cons p ps => simp [outputRow, h1, h2, h3, h4, h5]
  simp only [routePredict, List.mapM_cons, List.mapM_nil, hn]
  cases hnb : normalizeRecord b with
  | none => rfl
  | some row =>
    simp only [hnb, Option.pure_def, Option.bind_eq_bind, Option.some_bind]
    cases m [row] with
    | none => rfl
    | some preds => simp only [hz preds]

/-- C5: a predict request record carrying `weight_percent` (and no `weight`
key) normalizes to the same feature row — hence scores identically under any
loaded model — as the identical record carrying the value under `weight`. -/
theorem claim_C5 (r : PredRecord) (v : ℚ) (h1 : r.weight = none)
    (h2 : r.weight_percent = some (some v)) :
    normalizeRecord r =
      normalizeRecord { r with weight := some (some v), weight_percent := none } ∧
    ∀ m : Model, routePredict (some m) (some [r]) =
      routePredict (some m)
        (some [{ r with weight := some (some v), weight_percent := none }]) := by
  obtain ⟨f1, f2, f3, f4, f5, f6, f7, f8, f9, f10, f11, f12, f13, f14⟩ := r
  cases h1
  cases h2
  have hn : normalizeRecord
        (PredRecord.mk none (some (some v)) f3 f4 f5 f6 f7 f8 f9 f10 f11 f12 f13 f14) =
      normalizeRecord
        (PredRecord.mk (some (some v)) none f3 f4 f5 f6 f7 f8 f9 f10 f11 f12 f13 f14) := rfl
  exact ⟨hn, fun m => routePredict_single_congr m _ _ hn rfl rfl rfl rfl rfl⟩

def c5rec : PredRecord := { weight_percent := some (some 7) }

theorem claim_C5_witness :
    normalizeRecord c5rec =
      normalizeRecord { c5rec with weight := some (some 7), weight_percent := none } ∧
    ∀ m : Model, routePredict (some m) (some [c5rec]) =
      routePredict (some m)
        (some [{ c5rec with weight := some (some 7), weight_percent := none }]) :=
  claim_C5 c5rec 7 rfl rfl

/-- C6: with no model loaded the predict route answers the distinct
"not ready" outcome — HTTP 503 with the explanatory message — for every
well-formed body, also right after a failed (re)load, and that outcome
differs from the scoring-failure 500, the bad-request 400 and an uncaught
generic error. -/
theorem claim_C6 :
    (∀ l : List PredRecord, routePredict none (some l) =
      .errResp notReadyMsg 503) ∧
    (∀ (prev : Option Model) (l : List PredRecord),
      routePredict (loadScheduleModel prev .missing).1 (some l) =
        .errResp notReadyMsg 503) ∧
    (∀ (prev : Option Model) (l : List PredRecord),
      routePredict (loadScheduleModel prev .corrupt).1 (some l) =
        .errResp notReadyMsg 503) ∧
    PredictResp.errResp notReadyMsg 503 ≠
      PredictResp.errResp "Model prediction failed" 500 ∧
    PredictResp.errResp notReadyMsg 503 ≠
      PredictResp.errResp "Request JSON must contain assignments field (list)" 400 ∧
    PredictResp.errResp notReadyMsg 503 ≠ PredictResp.uncaught := by
  refine ⟨fun l => rfl, fun prev l => rfl, fun prev l => rfl, ?_, ?_, ?_⟩
  all_goals simp [notReadyMsg]

theorem claim_C6_witness :
    routePredict none (some ([] : List PredRecord)) =
      PredictResp.errResp notReadyMsg 503 :=
  claim_C6.1 []

/-- C8: `load_schedule_model` always leaves the global model reference equal
to the freshly deserialized pipeline on success and `none` on a missing or
corrupt artifact — regardless of what was loaded before, so a failed reload
clears a previously loaded model instead of retaining it. -/
theorem claim_C8 :
    (∀ prev : Option Model, (loadScheduleModel prev .missing).1 = none) ∧
    (∀ prev : Option Model, (loadScheduleModel prev .corrupt).1 = none) ∧
    (∀ (prev : Option Model) (m : Model),
      (loadScheduleModel prev (.artifact m)).1 = some m) :=
  ⟨fun _ => rfl, fun _ => rfl, fun _ _ => rfl⟩

/-- C9: in the predict route's input normalization, a present-but-null (or
falsy) `weight`, `vle_count_total` or `assessment_type` is coerced to `0.0`,
`0` and `"unknown"` respectively, without error; a record with
`past_avg_score` explicitly null resolves from `student_past_avg`
(default `50.0`) and never consults the `past_score` alias. -/
theorem claim_C9 :
    (∀ a : PredRecord, a.weight = some none ∨ a.weight = some (some 0) →
      resolve_weight a = 0) ∧
    (∀ a : PredRecord,
      a.vle_count_total = some none ∨ a.vle_count_total = some (some 0) →
      resolve_vle a = 0) ∧
    (∀ a : PredRecord,
      a.assessment_type = some none ∨ a.assessment_type = some (some "") →
      resolve_assess_type a = "unknown") ∧
    (∀ a : PredRecord, a.past_avg_score = some none →
      resolve_past a = pyGet a.student_past_avg (some 50)) ∧
    (∀ (a : PredRecord) (ps : Option (Option ℚ)), a.past_avg_score = some none →
      resolve_past { a with past_score := ps } = resolve_past a) := by
  refine ⟨fun a h => ?_, fun a h => ?_, fun a h => ?_, fun a h => ?_, fun a ps h => ?_⟩
  · rcases h with h | h <;> simp [resolve_weight, pyGet, pyOrQ, h]
  · rcases h with h | h <;> simp [resolve_vle, pyGet, pyOrQ, h]
  · rcases h with h | h <;> simp [resolve_assess_type, pyGet, pyOrStr, h]
  · simp [resolve_past, pyGet, h]
  · obtain ⟨f1, f2, f3, f4, f5, f6, f7, f8, f9, f10, f11, f12, f13, f14⟩ := a
    cases h
    rfl

theorem claim_C9_witness :
    resolve_weight ({ weight := some none } : PredRecord) = 0 ∧
    resolve_vle ({ vle_count_total := some (some 0) } : PredRecord) = 0 ∧
    resolve_assess_type ({ assessment_type := some none } : PredRecord) = "unknown" ∧
    resolve_past ({ past_avg_score := some none, student_past_avg := some (some 7) } : PredRecord) =
      pyGet (some (some 7)) (some 50) ∧
    resolve_past ({ past_avg_score := some none, past_score := some (some 3) } : PredRecord) =
      resolve_past ({ past_avg_score := some none } : PredRecord) :=
  ⟨claim_C9.1 _ (Or.inl rfl), claim_C9.2.1 _ (Or.inr rfl),
   claim_C9.2.2.1 _ (Or.inl rfl), claim_C9.2.2.2.1 _ rfl,
   claim_C9.2.2.2.2 ({ past_avg_score := some none } : PredRecord)
     (some (some 3)) rfl⟩

/-! ## Training Pipeline: claim C7 -/

/-- C7: if the best-effort 5-fold cross-validation step fails (for any
reason), a training run that reached it still completes: `cv_r2_mean` and
`cv_r2_std` are recorded as null in the metrics report, and the pipeline
artifact and metrics file are still written. -/
theorem claim_C7 (env : TrainEnv) (df : LoadedCsv)
    (hdf : env.dataFile = some df)
    (htgt : "assignment_hours" ∈ df.cols)
    (hfeat : (expectedFeatures df).isEmpty = false)
    (hcv : env.cvResult = none) :
    ∃ out : TrainRunOutput, trainMain env = .ok out ∧
      out.metrics.cv_r2_mean = none ∧ out.metrics.cv_r2_std = none ∧
      out.artifactWritten = true ∧ out.metricsWritten = true := by
  simp only [trainMain, hdf, hcv]
  rw [if_pos htgt]
  simp only [hfeat, Bool.false_eq_true, if_false, Option.map_none]
  exact ⟨_, rfl, rfl, rfl, rfl, rfl⟩

def c7df : LoadedCsv :=
  { path := "backend/training_data/oulad_training.csv",
    cols := ["student_id", "assessment_id", "assessment_type", "weight",
             "score", "vle_count_total", "past_avg_score", "assignment_hours"],
    nrows := 3 }

def c7env : TrainEnv :=
  { dataFile := some c7df, evalMetrics := (1, 0, 0),
    cvResult := none, fiResult := none }

theorem claim_C7_witness :
    c7env.dataFile = some c7df ∧ "assignment_hours" ∈ c7df.cols ∧
    (expectedFeatures c7df).isEmpty = false ∧ c7env.cvResult = none ∧
    (∃ out : TrainRunOutput, trainMain c7env = .ok out ∧
      out.metrics.cv_r2_mean = none ∧ out.metrics.cv_r2_std = none ∧
      out.artifactWritten = true ∧ out.metricsWritten = true) :=
  ⟨rfl, by decide, by decide, rfl,
   claim_C7 c7env c7df rfl (by decide) (by decide) rfl⟩

/-! ## Feature Builder output: claim C10 -/

theorem mergedRows_fst_mem {subs : List SubmissionRow}
    {asl : List AssessmentMetaRow} {sa : SubmissionRow × Option AssessmentMetaRow}
    (h : sa ∈ mergedRows subs asl) : sa.1 ∈ subs := by
  unfold mergedRows at h
  rw [List.mem_flatMap] at h
  obtain ⟨s, hs, hin⟩ := h
  rcases hfl : asl.filter (fun a => a.id_assessment = s.id_assessment) with _ | ⟨a0, l0⟩
  · rw [hfl] at hin
    simp only [List.mem_singleton] at hin
    rw [hin]
    exact hs
  · rw [hfl] at hin
    rw [List.mem_map] at hin
    obtain ⟨a, _, ha⟩ := hin
    rw [← ha]
    exact hs

theorem lookup_isSome_of_key_mem (l : List (ℤ × ℚ)) (sid : ℤ)
    (h : sid ∈ l.map Prod.fst) : (l.lookup sid).isSome := by
  induction l with
  | nil => simp at h
  | cons kv t ih =>
    obtain ⟨k, v⟩ := kv
    rw [List.map_cons, List.mem_cons] at h
    by_cases hk : sid = k
    · simp [List.lookup, hk]
    · have ht : sid ∈ t.map Prod.fst := by
        rcases h with h | h
        · exact absurd h hk
        · exact h
      have hbeq : (sid == k) = false := by
        simp [hk]
      simpa [List.lookup, hbeq] using ih ht

theorem map_fst_keyed {β : Type} (keys : List ℤ) (f : ℤ → β) :
    (keys.map (fun k => (k, f k))).map Prod.fst = keys := by
  induction keys with
  | nil => rfl
  | cons k ks ih => simp only [List.map_cons, ih]

theorem pastAvgTable_keys (subs : List SubmissionRow) :
    (pastAvgTable subs).map Prod.fst = studentKeys subs := by
  unfold pastAvgTable
  exact map_fst_keyed _ _

/-- C10: every row of the final engineered table (rows with non-null
`student_id` and `assessment_id`) carries a non-null `past_avg_score` and a
non-null `vle_count_total` — the per-student average is aggregated from the
same submission table that produced the row, and the click total is
`fillna(0)`-ed — so the proxy formula's substitute-50 branch is never
exercised on Feature Builder output. -/
theorem claim_C10 (subs : List SubmissionRow) (asl : List AssessmentMetaRow)
    (svle : Option (List VleRow)) (r : FeatureRow)
    (hr : r ∈ dfFinal subs asl svle) :
    r.past_avg_score.isSome ∧ r.vle_count_total.isSome := by
  unfold dfFinal at hr
  rw [List.mem_filter] at hr
  obtain ⟨hmem, hpred⟩ := hr
  unfold buildFeatureRows at hmem
  rw [List.mem_map] at hmem
  obtain ⟨sa, hsa, hEq⟩ := hmem
  obtain ⟨s, aopt⟩ := sa
  have hs : s ∈ subs := mergedRows_fst_mem hsa
  subst hEq
  dsimp only at hpred ⊢
  rw [Bool.and_eq_true] at hpred
  obtain ⟨hsid', _⟩ := hpred
  obtain ⟨sid, hsid⟩ := Option.isSome_iff_exists.mp hsid'
  refine ⟨?_, ?_⟩
  · rw [hsid]
    apply lookup_isSome_of_key_mem
    rw [pastAvgTable_keys]
    unfold studentKeys
    rw [List.mem_dedup]
    exact List.mem_filterMap.mpr ⟨s, hs, hsid⟩
  · simp

def c10subs : List SubmissionRow := [⟨some 1, some 100, none⟩]

def c10asl : List AssessmentMetaRow := [⟨some 100, some "TMA", some 10⟩]

def c10svle : Option (List VleRow) := none

def c10row : FeatureRow :=
  ⟨some 1, some 100, some "TMA", some 10, none, some 0, some 0⟩

theorem claim_C10_witness :
    c10row ∈ dfFinal c10subs c10asl c10svle ∧
    c10row.past_avg_score.isSome ∧ c10row.vle_count_total.isSome :=
  ⟨by decide, claim_C10 c10subs c10asl c10svle c10row (by decide)⟩

end CanvasHelper
